import Mathlib

/-!
Verification of the payeasy admin RBAC subsystem.

Shallow embedding of:
- `apps/web/lib/types/roles.ts` (role / permission data model, `ROLE_PERMISSIONS` matrix)
- `lib/auth/roles.ts` (permission checks, context construction, role hierarchy)
- `middleware/authorization.ts` (`authorizeRequest`)
- `app/api/admin/roles/[id]/route.ts` (`PATCH` / `DELETE` handlers)
- `supabase/migrations/20260225_create_admin_rbac.sql` (`audit_role_change` trigger)
-/

namespace PayEasy

/-- `AdminRole` from `types/roles.ts`:
`super_admin | moderator | support | analyst | custom`. -/
inductive AdminRole where
  | super_admin
  | moderator
  | support
  | analyst
  | custom
deriving DecidableEq, Repr, Fintype

/-- Lifecycle status of an admin record: `active | inactive | suspended`. -/
inductive AdminStatus where
  | active
  | inactive
  | suspended
deriving DecidableEq, Repr, Fintype

/-- `PermissionKey` from `types/roles.ts`: the full permission catalog
(dots in the TypeScript string literals become underscores). -/
inductive PermissionKey where
  | users_view
  | users_edit
  | users_suspend
  | users_delete
  | users_assign_role
  | listings_view
  | listings_edit
  | listings_delete
  | listings_publish
  | listings_unpublish
  | disputes_view
  | disputes_resolve
  | disputes_appeal
  | support_manage_tickets
  | support_respond
  | reports_view
  | reports_generate
  | reports_export
  | payments_view
  | payments_refund
  | payments_manage_fees
  | settings_admin
  | settings_system
  | audit_view
  | audit_export
  | roles_view
  | roles_create
  | roles_edit
  | roles_delete
deriving DecidableEq, Repr, Fintype

open AdminRole AdminStatus PermissionKey

/-- The dotted string literal of a permission key, as written in TypeScript. -/
def permToString : PermissionKey → String
  | users_view => "users.view"
  | users_edit => "users.edit"
  | users_suspend => "users.suspend"
  | users_delete => "users.delete"
  | users_assign_role => "users.assign_role"
  | listings_view => "listings.view"
  | listings_edit => "listings.edit"
  | listings_delete => "listings.delete"
  | listings_publish => "listings.publish"
  | listings_unpublish => "listings.unpublish"
  | disputes_view => "disputes.view"
  | disputes_resolve => "disputes.resolve"
  | disputes_appeal => "disputes.appeal"
  | support_manage_tickets => "support.manage_tickets"
  | support_respond => "support.respond"
  | reports_view => "reports.view"
  | reports_generate => "reports.generate"
  | reports_export => "reports.export"
  | payments_view => "payments.view"
  | payments_refund => "payments.refund"
  | payments_manage_fees => "payments.manage_fees"
  | settings_admin => "settings.admin"
  | settings_system => "settings.system"
  | audit_view => "audit.view"
  | audit_export => "audit.export"
  | roles_view => "roles.view"
  | roles_create => "roles.create"
  | roles_edit => "roles.edit"
  | roles_delete => "roles.delete"

/-- `ROLE_PERMISSIONS` matrix from `types/roles.ts`. -/
def ROLE_PERMISSIONS : AdminRole → List PermissionKey
  | super_admin =>
    [users_view, users_edit, users_suspend, users_delete, users_assign_role,
     listings_view, listings_edit, listings_delete, listings_publish, listings_unpublish,
     disputes_view, disputes_resolve, disputes_appeal,
     support_manage_tickets, support_respond,
     reports_view, reports_generate, reports_export,
     payments_view, payments_refund, payments_manage_fees,
     settings_admin, settings_system, audit_view, audit_export,
     roles_view, roles_create, roles_edit, roles_delete]
  | moderator =>
    [users_view, users_edit, users_suspend,
     listings_view, listings_edit, listings_delete, listings_publish, listings_unpublish,
     disputes_view, disputes_resolve,
     support_manage_tickets, support_respond,
     reports_view, audit_view, roles_view]
  | support =>
    [users_view, disputes_view, disputes_resolve,
     support_manage_tickets, support_respond,
     reports_view, audit_view]
  | analyst =>
    [users_view, listings_view, disputes_view,
     reports_view, reports_generate, reports_export,
     audit_view, roles_view]
  | custom => []

/-- `AdminUser` record from `types/roles.ts`.
`custom_permissions` is optional (`undefined` and `null` both become `none`). -/
structure AdminUser where
  id : String
  user_id : String
  role : AdminRole
  custom_permissions : Option (List PermissionKey)
  assigned_at : String
  assigned_by : String
  status : AdminStatus
  created_at : String
  updated_at : String
deriving DecidableEq, Repr

/-- `AuthorizationContext` from `types/roles.ts`. -/
structure AuthorizationContext where
  user_id : String
  admin_id : Option String
  role : Option AdminRole
  permissions : List PermissionKey
  is_admin : Bool
  is_super_admin : Bool
deriving DecidableEq, Repr

/-- `hasPermission` from `lib/auth/roles.ts`:
`context.permissions.includes(permission)`. -/
def hasPermission (context : AuthorizationContext) (permission : PermissionKey) : Bool :=
  context.permissions.contains permission

/-- `hasAllPermissions` from `lib/auth/roles.ts` (AND logic):
`permissions.every((p) => hasPermission(context, p))`. -/
def hasAllPermissions (context : AuthorizationContext) (permissions : List PermissionKey) : Bool :=
  permissions.all (fun p => hasPermission context p)

/-- `hasAnyPermission` from `lib/auth/roles.ts` (OR logic):
`permissions.some((p) => hasPermission(context, p))`. -/
def hasAnyPermission (context : AuthorizationContext) (permissions : List PermissionKey) : Bool :=
  permissions.any (fun p => hasPermission context p)

/-- `getRolePermissions` from `lib/auth/roles.ts`.
In TypeScript a present array (even an empty one) is truthy, while both
`null` and `undefined` are falsy, so the `role === custom && customPermissions`
branch fires exactly when the optional argument is `some`. -/
def getRolePermissions (role : AdminRole) (customPermissions : Option (List PermissionKey)) :
    List PermissionKey :=
  match role, customPermissions with
  | AdminRole.custom, some ps => ps
  | r, _ => ROLE_PERMISSIONS r

/-- `createAuthorizationContext` from `lib/auth/roles.ts`. -/
def createAuthorizationContext (admin : AdminUser) : AuthorizationContext :=
  { user_id := admin.user_id
    admin_id := some admin.id
    role := some admin.role
    permissions := getRolePermissions admin.role admin.custom_permissions
    is_admin := decide (admin.status = AdminStatus.active)
    is_super_admin :=
      decide (admin.role = AdminRole.super_admin ∧ admin.status = AdminStatus.active) }

/-- `ROLE_HIERARCHY` from `lib/auth/roles.ts` (higher number = more powerful). -/
def ROLE_HIERARCHY : AdminRole → Nat
  | super_admin => 100
  | moderator => 60
  | support => 40
  | analyst => 20
  | custom => 30

/-- `canManageRole` from `lib/auth/roles.ts`. -/
def canManageRole (manager_role : AdminRole) (target_role : AdminRole) : Bool :=
  if manager_role = AdminRole.super_admin then
    true
  else
    decide (ROLE_HIERARCHY manager_role > ROLE_HIERARCHY target_role)

/-- `validateRoleAssignment` from `lib/auth/roles.ts`. -/
def validateRoleAssignment (assigner_context : AuthorizationContext)
    (target_role : AdminRole) : Bool :=
  if ¬ hasPermission assigner_context PermissionKey.users_assign_role then
    false
  else
    match assigner_context.role with
    | none => false
    | some r => canManageRole r target_role

/-- API error body shape shared by the middleware helpers in `lib/auth/roles.ts`
and the catch-all body in `middleware/authorization.ts`
(`message` is absent from the catch-all literal, hence optional here). -/
structure ApiError where
  success : Bool
  error : String
  message : Option String
  status : Nat
deriving DecidableEq, Repr

/-- `permissionDeniedError` from `lib/auth/roles.ts`. -/
def permissionDeniedError (permission : Option PermissionKey) : ApiError :=
  { success := false
    error := "PERMISSION_DENIED"
    message :=
      match permission with
      | some p => some ("User lacks required permission: " ++ permToString p)
      | none => some "User does not have admin access"
    status := 403 }

/-- `adminAccessRequiredError` from `lib/auth/roles.ts`. -/
def adminAccessRequiredError : ApiError :=
  { success := false
    error := "ADMIN_ACCESS_REQUIRED"
    message := some "This action requires admin access"
    status := 403 }

/-- The `\x7b success: false, error: 'Internal server error' \x7d` body returned
with HTTP 500 from the catch block of `authorizeRequest`. -/
def internalServerError : ApiError :=
  { success := false
    error := "Internal server error"
    message := none
    status := 500 }

/-- Observable inputs of one `authorizeRequest` call in
`middleware/authorization.ts`: whether the Authorization header carries a
Bearer token, the outcome of `supabase.auth.getUser` (the authenticated user
id, `none` on error), the outcome of the `admin_users` lookup filtered by
`status = active` (`none` when no active record exists or the query errors),
and whether an unexpected exception is thrown (routed to the catch block). -/
structure AuthRequestEnv where
  hasBearerToken : Bool
  tokenUser : Option String
  activeAdmin : Option AdminUser
  storeFault : Bool
deriving DecidableEq, Repr

/-- `AuthorizationResult` from `middleware/authorization.ts`. -/
structure AuthorizationResult where
  authorized : Bool
  context : Option AuthorizationContext
  response : Option ApiError
  userId : Option String
  adminId : Option String
deriving DecidableEq, Repr

/-- `authorizeRequest` from `middleware/authorization.ts`.
A single required permission is passed by the TypeScript callers as a
one-element array; `none` models the `undefined` (no check) case.
`permissions.head?` models `permissions[0]`. -/
def authorizeRequest (env : AuthRequestEnv)
    (requiredPermission : Option (List PermissionKey)) (requireAll : Bool) :
    AuthorizationResult :=
  if env.storeFault then
    { authorized := false, context := none, response := some internalServerError,
      userId := none, adminId := none }
  else if ¬ env.hasBearerToken then
    { authorized := false, context := none, response := some adminAccessRequiredError,
      userId := none, adminId := none }
  else
    match env.tokenUser with
    | none =>
      { authorized := false, context := none, response := some adminAccessRequiredError,
        userId := none, adminId := none }
    | some uid =>
      match env.activeAdmin with
      | none =>
        { authorized := false, context := none, response := some adminAccessRequiredError,
          userId := some uid, adminId := none }
      | some adminData =>
        let context := createAuthorizationContext adminData
        match requiredPermission with
        | none =>
          { authorized := true, context := some context, response := none,
            userId := some uid, adminId := some adminData.id }
        | some permissions =>
          let hasRequired :=
            if requireAll then
              permissions.all (fun p => hasPermission context p)
            else
              permissions.any (fun p => hasPermission context p)
          if hasRequired then
            { authorized := true, context := some context, response := none,
              userId := some uid, adminId := some adminData.id }
          else
            { authorized := false, context := some context,
              response := some (permissionDeniedError permissions.head?),
              userId := some uid, adminId := some adminData.id }

/-- Observable authentication inputs of the route handlers in
`app/api/admin/roles/[id]/route.ts`. -/
structure RouteEnv where
  hasBearerToken : Bool
  tokenUser : Option String
deriving DecidableEq, Repr

/-- Parsed JSON body of a PATCH request. Raw strings for `role` and `status`
mirror the handler validating them against string lists before casting.
For `custom_permissions` the outer `Option` is presence in the body
(`!== undefined`) and the inner `Option` distinguishes `null` from a list. -/
structure PatchBody where
  role : Option String
  custom_permissions : Option (Option (List PermissionKey))
  status : Option String
  reason : Option String
deriving DecidableEq, Repr

/-- Responses produced by the PATCH / DELETE handlers. -/
inductive RouteResult where
  | errorResp (e : ApiError)
  | jsonError (message : String) (status : Nat)
  | patchSuccess (updated : AdminUser)
  | deleteSuccess
deriving DecidableEq, Repr

/-- The role whitelist check
`['super_admin', 'moderator', 'support', 'analyst', 'custom'].includes(role)`
combined with the cast `role as AdminRole`. -/
def parseRole : String → Option AdminRole
  | "super_admin" => some AdminRole.super_admin
  | "moderator" => some AdminRole.moderator
  | "support" => some AdminRole.support
  | "analyst" => some AdminRole.analyst
  | "custom" => some AdminRole.custom
  | _ => none

/-- The status whitelist check `['active', 'inactive', 'suspended'].includes(status)`. -/
def parseStatus : String → Option AdminStatus
  | "active" => some AdminStatus.active
  | "inactive" => some AdminStatus.inactive
  | "suspended" => some AdminStatus.suspended
  | _ => none

/-- The `admin_users` query `.eq('user_id', uid).eq('status', 'active').single()`
(user_id is UNIQUE, so the first match is the single row). -/
def findActiveAdminByUser (db : List AdminUser) (uid : String) : Option AdminUser :=
  db.find? (fun a => decide (a.user_id = uid ∧ a.status = AdminStatus.active))

/-- The `admin_users` query `.eq('id', id).single()`. -/
def findAdminById (db : List AdminUser) (id : String) : Option AdminUser :=
  db.find? (fun a => decide (a.id = id))

/-- The `toUpdate` object accumulated by the PATCH handler. -/
structure UpdateSpec where
  role : Option AdminRole
  custom_permissions : Option (Option (List PermissionKey))
  status : Option AdminStatus
deriving DecidableEq, Repr

/-- Applying `toUpdate` to a stored row (`supabase.update(toUpdate)`). -/
def applyUpdate (a : AdminUser) (u : UpdateSpec) : AdminUser :=
  { a with
    role := u.role.getD a.role
    custom_permissions :=
      match u.custom_permissions with
      | some v => v
      | none => a.custom_permissions
    status := u.status.getD a.status }

/-- Early-return validation of the `role` body field in the PATCH handler. -/
def validateRoleField : Option String → Except RouteResult (Option AdminRole)
  | none => Except.ok none
  | some s =>
    match parseRole s with
    | none => Except.error (RouteResult.jsonError "Invalid role" 400)
    | some r => Except.ok (some r)

/-- Early-return validation of the `status` body field in the PATCH handler. -/
def validateStatusField : Option String → Except RouteResult (Option AdminStatus)
  | none => Except.ok none
  | some s =>
    match parseStatus s with
    | none => Except.error (RouteResult.jsonError "Invalid status" 400)
    | some st => Except.ok (some st)

/-- `PATCH /api/admin/roles/[id]` from `app/api/admin/roles/[id]/route.ts`,
returning the response and the resulting `admin_users` store. -/
def PATCH (db : List AdminUser) (env : RouteEnv) (id : String) (body : PatchBody) :
    RouteResult × List AdminUser :=
  if ¬ env.hasBearerToken then
    (RouteResult.errorResp adminAccessRequiredError, db)
  else
    match env.tokenUser with
    | none => (RouteResult.errorResp adminAccessRequiredError, db)
    | some uid =>
      match findActiveAdminByUser db uid with
      | none =>
        (RouteResult.errorResp (permissionDeniedError (some PermissionKey.users_assign_role)), db)
      | some currentAdmin =>
        if ¬ currentAdmin.role = AdminRole.super_admin then
          (RouteResult.errorResp (permissionDeniedError (some PermissionKey.users_assign_role)), db)
        else
          match findAdminById db id with
          | none => (RouteResult.jsonError "Admin user not found" 404, db)
          | some _targetAdmin =>
            match validateRoleField body.role with
            | Except.error e => (e, db)
            | Except.ok roleUpd =>
              match validateStatusField body.status with
              | Except.error e => (e, db)
              | Except.ok statusUpd =>
                let upd : UpdateSpec :=
                  { role := roleUpd, custom_permissions := body.custom_permissions,
                    status := statusUpd }
                let newDb := db.map (fun a => if a.id = id then applyUpdate a upd else a)
                match findAdminById newDb id with
                | none => (RouteResult.jsonError "Failed to update admin" 500, db)
                | some updated => (RouteResult.patchSuccess updated, newDb)

/-- `DELETE /api/admin/roles/[id]` from `app/api/admin/roles/[id]/route.ts`,
returning the response and the resulting `admin_users` store. -/
def DELETE (db : List AdminUser) (env : RouteEnv) (id : String) :
    RouteResult × List AdminUser :=
  if ¬ env.hasBearerToken then
    (RouteResult.errorResp adminAccessRequiredError, db)
  else
    match env.tokenUser with
    | none => (RouteResult.errorResp adminAccessRequiredError, db)
    | some uid =>
      match findActiveAdminByUser db uid with
      | none =>
        (RouteResult.errorResp (permissionDeniedError (some PermissionKey.users_assign_role)), db)
      | some currentAdmin =>
        if ¬ currentAdmin.role = AdminRole.super_admin then
          (RouteResult.errorResp (permissionDeniedError (some PermissionKey.users_assign_role)), db)
        else
          match findAdminById db id with
          | none => (RouteResult.jsonError "Admin user not found" 404, db)
          | some targetAdmin =>
            if targetAdmin.user_id = uid then
              (RouteResult.jsonError "Cannot remove your own admin access" 400, db)
            else
              (RouteResult.deleteSuccess, db.filter (fun a => ¬ a.id = id))

/-- Audit action tags of the `role_audits` table. -/
inductive AuditAction where
  | created
  | updated
  | deleted
  | suspended
  | reactivated
deriving DecidableEq, Repr

/-- A trigger invocation on `admin_users`: `TG_OP` together with the
`OLD` / `NEW` rows that exist for that operation. -/
inductive TriggerOp where
  | insertOp (new : AdminUser)
  | updateOp (old new : AdminUser)
  | deleteOp (old : AdminUser)
deriving DecidableEq, Repr

/-- The `action_type` computation of the `audit_role_change` trigger function in
`supabase/migrations/20260225_create_admin_rbac.sql` (the dead
`NEW.role != OLD.role` branch assigns the same tag as the final ELSE and is
kept to mirror the SQL). -/
def audit_role_change : TriggerOp → AuditAction
  | TriggerOp.insertOp _ => AuditAction.created
  | TriggerOp.updateOp old new =>
    if old.status = AdminStatus.suspended ∧ new.status = AdminStatus.active then
      AuditAction.reactivated
    else if new.status = AdminStatus.suspended ∧ ¬ old.status = AdminStatus.suspended then
      AuditAction.suspended
    else if ¬ new.role = old.role then
      AuditAction.updated
    else
      AuditAction.updated
  | TriggerOp.deleteOp _ => AuditAction.deleted

/-- Modelled from the spec (for refinement comparison only): action inference
as the spec words it — `created` when no prior record existed;
`suspended`/`reactivated` when ONLY the status transitions between suspended
and active; `updated` for any other role/permission change; `deleted` when the
record is removed. -/
def specAuditAction : TriggerOp → AuditAction
  | TriggerOp.insertOp _ => AuditAction.created
  | TriggerOp.updateOp old new =>
    if old.role = new.role ∧ old.custom_permissions = new.custom_permissions ∧
        old.status = AdminStatus.suspended ∧ new.status = AdminStatus.active then
      AuditAction.reactivated
    else if old.role = new.role ∧ old.custom_permissions = new.custom_permissions ∧
        old.status = AdminStatus.active ∧ new.status = AdminStatus.suspended then
      AuditAction.suspended
    else
      AuditAction.updated
  | TriggerOp.deleteOp _ => AuditAction.deleted

/-- A super_admin record whose status is suspended. -/
def suspendedSuperAdmin : AdminUser :=
  { id := "admin-9", user_id := "user-9", role := AdminRole.super_admin,
    custom_permissions := none, assigned_at := "2026-01-01", assigned_by := "user-0",
    status := AdminStatus.suspended, created_at := "2026-01-01", updated_at := "2026-01-01" }

/-- A super_admin record whose status is active. -/
def activeSuperAdmin : AdminUser :=
  { id := "admin-1", user_id := "user-1", role := AdminRole.super_admin,
    custom_permissions := none, assigned_at := "2026-01-01", assigned_by := "user-0",
    status := AdminStatus.active, created_at := "2026-01-01", updated_at := "2026-01-01" }

/-- An active support-role record. -/
def supportAdmin : AdminUser :=
  { id := "admin-2", user_id := "user-2", role := AdminRole.support,
    custom_permissions := none, assigned_at := "2026-01-01", assigned_by := "user-0",
    status := AdminStatus.active, created_at := "2026-01-01", updated_at := "2026-01-01" }

/-- An active analyst record, used as the OLD row of an audit trigger update. -/
def auditOldRecord : AdminUser :=
  { id := "admin-3", user_id := "user-3", role := AdminRole.analyst,
    custom_permissions := none, assigned_at := "2026-01-01", assigned_by := "user-0",
    status := AdminStatus.active, created_at := "2026-01-01", updated_at := "2026-01-01" }

/-- The NEW row of the same update: role changed and status suspended at once. -/
def auditNewRecord : AdminUser :=
  { auditOldRecord with role := AdminRole.moderator, status := AdminStatus.suspended }

/-- A PATCH body that only suspends the target record. -/
def selfSuspendBody : PatchBody :=
  { role := none, custom_permissions := none, status := some "suspended", reason := none }

/-- C1 (counterexample): a context built from a suspended super_admin record does
NOT have an empty permission set — `createAuthorizationContext` copies the full
role permission set regardless of status; only the booleans consult the status. -/
theorem suspended_super_admin_keeps_role_permissions :
  (createAuthorizationContext suspendedSuperAdmin).permissions ≠ [] ∧
  (createAuthorizationContext suspendedSuperAdmin).permissions =
    ROLE_PERMISSIONS AdminRole.super_admin ∧
  (createAuthorizationContext suspendedSuperAdmin).is_super_admin = false := by
  decide

/-- C1 (amended): for any record whose status is not active, the context has
`is_super_admin = false` and `is_admin = false`; its `permissions` field still
equals the role-derived permission set. -/
theorem inactive_context_flags_false : ∀ admin : AdminUser,
    ¬ admin.status = AdminStatus.active →
    (createAuthorizationContext admin).is_super_admin = false ∧
    (createAuthorizationContext admin).is_admin = false ∧
    (createAuthorizationContext admin).permissions =
      getRolePermissions admin.role admin.custom_permissions := by
  intro admin h
  refine ⟨?_, ?_, rfl⟩ <;> simp [createAuthorizationContext, h]

/-- C1 (witness): the amended statement evaluated on the suspended super_admin. -/
theorem inactive_context_flags_false_witness :
  (¬ suspendedSuperAdmin.status = AdminStatus.active) ∧
  ((createAuthorizationContext suspendedSuperAdmin).is_super_admin = false ∧
   (createAuthorizationContext suspendedSuperAdmin).is_admin = false ∧
   (createAuthorizationContext suspendedSuperAdmin).permissions =
     getRolePermissions suspendedSuperAdmin.role suspendedSuperAdmin.custom_permissions) :=
  ⟨by decide, inactive_context_flags_false suspendedSuperAdmin (by decide)⟩

/-- C2: `canManageRole` is exactly `manager = super_admin OR
rank(manager) > rank(target)` over all 25 role pairs, with the fixed ranks
super_admin=100, moderator=60, support=40, custom=30, analyst=20. -/
theorem canManageRole_exact_characterization :
  (∀ m t : AdminRole, canManageRole m t = true ↔
    (m = AdminRole.super_admin ∨ ROLE_HIERARCHY m > ROLE_HIERARCHY t)) ∧
  ROLE_HIERARCHY AdminRole.super_admin = 100 ∧
  ROLE_HIERARCHY AdminRole.moderator = 60 ∧
  ROLE_HIERARCHY AdminRole.support = 40 ∧
  ROLE_HIERARCHY AdminRole.custom = 30 ∧
  ROLE_HIERARCHY AdminRole.analyst = 20 := by
  refine ⟨?_, rfl, rfl, rfl, rfl, rfl⟩
  decide

/-- C3 (counterexample): the PATCH handler performs no identity-equality
self-protection check — an active super_admin suspending their own record
succeeds and mutates the store, contrary to the claim that every mutating
operation on one's own record is rejected before any write. -/
theorem patch_allows_self_suspension :
  activeSuperAdmin.user_id = "user-1" ∧
  (PATCH [activeSuperAdmin] ⟨true, some "user-1"⟩ "admin-1" selfSuspendBody).fst =
    RouteResult.patchSuccess { activeSuperAdmin with status := AdminStatus.suspended } ∧
  (PATCH [activeSuperAdmin] ⟨true, some "user-1"⟩ "admin-1" selfSuspendBody).snd =
    [{ activeSuperAdmin with status := AdminStatus.suspended }] := by
  decide

/-- C3 (amended): the identity-equality self-protection check guards only
removal via DELETE: when the target record belongs to the calling identity,
DELETE answers 400 before any write and the store is unchanged, even for a
super_admin caller. -/
theorem delete_rejects_self_removal : ∀ (db : List AdminUser) (uid id : String)
    (currentAdmin targetAdmin : AdminUser),
    findActiveAdminByUser db uid = some currentAdmin →
    currentAdmin.role = AdminRole.super_admin →
    findAdminById db id = some targetAdmin →
    targetAdmin.user_id = uid →
    DELETE db ⟨true, some uid⟩ id =
      (RouteResult.jsonError "Cannot remove your own admin access" 400, db) := by
  intro db uid id ca ta hfind hrole htarget hself
  simp [DELETE, hfind, hrole, htarget, hself]

/-- C3 (witness): the amended DELETE statement on a one-record store whose only
super_admin targets itself. -/
theorem delete_rejects_self_removal_witness :
  findActiveAdminByUser [activeSuperAdmin] "user-1" = some activeSuperAdmin ∧
  activeSuperAdmin.role = AdminRole.super_admin ∧
  findAdminById [activeSuperAdmin] "admin-1" = some activeSuperAdmin ∧
  activeSuperAdmin.user_id = "user-1" ∧
  DELETE [activeSuperAdmin] ⟨true, some "user-1"⟩ "admin-1" =
    (RouteResult.jsonError "Cannot remove your own admin access" 400, [activeSuperAdmin]) :=
  ⟨by decide, by decide, by decide, by decide,
   delete_rejects_self_removal [activeSuperAdmin] "user-1" "admin-1"
     activeSuperAdmin activeSuperAdmin (by decide) (by decide) (by decide) (by decide)⟩

/-- C4 (counterexample): with several required permissions under AND semantics,
the permission-denied response reports `permissions[0]`, which need not be the
missing key — a support admin holding users.view but lacking users.delete is
told about users.view. -/
theorem permission_denied_reports_held_key :
  (authorizeRequest ⟨true, some "user-2", some supportAdmin, false⟩
      (some [PermissionKey.users_view, PermissionKey.users_delete]) true).response =
    some (permissionDeniedError (some PermissionKey.users_view)) ∧
  hasPermission (createAuthorizationContext supportAdmin) PermissionKey.users_view = true ∧
  hasPermission (createAuthorizationContext supportAdmin) PermissionKey.users_delete = false := by
  decide

/-- C4 (amended): missing/invalid principal and absence of an active admin
record all yield the same ADMIN_ACCESS_REQUIRED response; a failed permission
check yields a distinct PERMISSION_DENIED response carrying the first required
permission key in its message (the missing key whenever a single permission is
required); an internal fault yields a distinct internal-error response,
never the access-denied one. -/
theorem authorizeRequest_failure_semantics :
  (∀ (tu : Option String) (aa : Option AdminUser)
      (req : Option (List PermissionKey)) (ra : Bool),
    (authorizeRequest ⟨false, tu, aa, false⟩ req ra).response =
      some adminAccessRequiredError) ∧
  (∀ (aa : Option AdminUser) (req : Option (List PermissionKey)) (ra : Bool),
    (authorizeRequest ⟨true, none, aa, false⟩ req ra).response =
      some adminAccessRequiredError) ∧
  (∀ (uid : String) (req : Option (List PermissionKey)) (ra : Bool),
    (authorizeRequest ⟨true, some uid, none, false⟩ req ra).response =
      some adminAccessRequiredError) ∧
  (∀ (uid : String) (admin : AdminUser) (perms : List PermissionKey) (ra : Bool),
    (authorizeRequest ⟨true, some uid, some admin, false⟩ (some perms) ra).authorized = true ∨
    (authorizeRequest ⟨true, some uid, some admin, false⟩ (some perms) ra).response =
      some (permissionDeniedError perms.head?)) ∧
  (∀ p : PermissionKey,
    (permissionDeniedError (some p)).message =
      some ("User lacks required permission: " ++ permToString p)) ∧
  (∀ (hb : Bool) (tu : Option String) (aa : Option AdminUser)
      (req : Option (List PermissionKey)) (ra : Bool),
    (authorizeRequest ⟨hb, tu, aa, true⟩ req ra).response = some internalServerError) ∧
  (∀ p : PermissionKey,
    (permissionDeniedError (some p)).error ≠ adminAccessRequiredError.error ∧
    (permissionDeniedError (some p)).error ≠ internalServerError.error) ∧
  internalServerError.error ≠ adminAccessRequiredError.error := by
  refine ⟨fun tu aa req ra => rfl, fun aa req ra => rfl, fun uid req ra => rfl,
    ?_, fun p => rfl, fun hb tu aa req ra => rfl,
    fun p =>
      ⟨by show ("PERMISSION_DENIED" : String) ≠ "ADMIN_ACCESS_REQUIRED"
          decide,
       by show ("PERMISSION_DENIED" : String) ≠ "Internal server error"
          decide⟩,
    by decide⟩
  intro uid admin perms ra
  by_cases h : (if ra then perms.all (fun p => hasPermission (createAuthorizationContext admin) p)
      else perms.any (fun p => hasPermission (createAuthorizationContext admin) p)) = true
  · exact Or.inl (by simp [authorizeRequest, h])
  · exact Or.inr (by simp [authorizeRequest, h])

/-- C5: `validateRoleAssignment` succeeds exactly when the assigner context
holds users.assign_role, has a role, and that role can manage the target role. -/
theorem validateRoleAssignment_iff : ∀ (ctx : AuthorizationContext) (tr : AdminRole),
    validateRoleAssignment ctx tr = true ↔
      (hasPermission ctx PermissionKey.users_assign_role = true ∧
       ∃ r, ctx.role = some r ∧ canManageRole r tr = true) := by
  intro ctx tr
  cases hp : hasPermission ctx PermissionKey.users_assign_role <;>
    cases hr : ctx.role <;>
      simp [validateRoleAssignment, hp, hr]

/-- C6: for the custom role, an explicit permission list is returned exactly;
the matrix entry for custom is empty; an absent (null/undefined) explicit list
normalizes to the empty set; the function is total by construction. -/
theorem getRolePermissions_custom_exact :
  (∀ ps : List PermissionKey, getRolePermissions AdminRole.custom (some ps) = ps) ∧
  ROLE_PERMISSIONS AdminRole.custom = [] ∧
  getRolePermissions AdminRole.custom none = [] :=
  ⟨fun _ => rfl, rfl, rfl⟩

/-- C7 (counterexample): an update that changes the role AND suspends at once is
tagged `suspended` by the trigger, although the claim reserves that tag for
transitions where ONLY the status changes (and would tag this one `updated`). -/
theorem audit_role_change_vs_spec :
  ¬ auditOldRecord.role = auditNewRecord.role ∧
  audit_role_change (TriggerOp.updateOp auditOldRecord auditNewRecord) =
    AuditAction.suspended ∧
  specAuditAction (TriggerOp.updateOp auditOldRecord auditNewRecord) =
    AuditAction.updated := by
  decide

/-- C7 (amended): `created` on insert and `deleted` on delete as claimed; on
update the tag depends on status alone — `reactivated` iff suspended→active,
`suspended` iff the new status is suspended and the old one was not (including
inactive→suspended and updates that also change role or permissions), and
`updated` in every other case. -/
theorem audit_role_change_characterization : ∀ rec old new : AdminUser,
    audit_role_change (TriggerOp.insertOp rec) = AuditAction.created ∧
    audit_role_change (TriggerOp.deleteOp rec) = AuditAction.deleted ∧
    (audit_role_change (TriggerOp.updateOp old new) = AuditAction.reactivated ↔
      (old.status = AdminStatus.suspended ∧ new.status = AdminStatus.active)) ∧
    (audit_role_change (TriggerOp.updateOp old new) = AuditAction.suspended ↔
      (new.status = AdminStatus.suspended ∧ ¬ old.status = AdminStatus.suspended)) ∧
    (audit_role_change (TriggerOp.updateOp old new) = AuditAction.updated ↔
      (¬(old.status = AdminStatus.suspended ∧ new.status = AdminStatus.active) ∧
       ¬(new.status = AdminStatus.suspended ∧ ¬ old.status = AdminStatus.suspended))) := by
  intro rec old new
  refine ⟨rfl, rfl, ?_, ?_, ?_⟩ <;>
    cases ho : old.status <;> cases hn : new.status <;>
      simp [audit_role_change, ho, hn]

/-- C8: every permission of the catalog is held by at least one non-custom
built-in role — the union of the super_admin, moderator, support and analyst
matrix entries is the whole `PermissionKey` enumeration. -/
theorem builtin_roles_cover_catalog : ∀ p : PermissionKey,
    p ∈ ROLE_PERMISSIONS AdminRole.super_admin ∨
    p ∈ ROLE_PERMISSIONS AdminRole.moderator ∨
    p ∈ ROLE_PERMISSIONS AdminRole.support ∨
    p ∈ ROLE_PERMISSIONS AdminRole.analyst := by
  decide

/-- C9: a context with `is_super_admin = true` always has `is_admin = true`,
since both flags require status = active. -/
theorem super_admin_context_is_admin : ∀ admin : AdminUser,
    (createAuthorizationContext admin).is_super_admin = true →
    (createAuthorizationContext admin).is_admin = true := by
  intro admin h
  simp [createAuthorizationContext] at h ⊢
  exact h.2

/-- C9 (witness): the implication evaluated on an active super_admin record. -/
theorem super_admin_context_is_admin_witness :
  (createAuthorizationContext activeSuperAdmin).is_super_admin = true ∧
  (createAuthorizationContext activeSuperAdmin).is_admin = true :=
  ⟨by decide, super_admin_context_is_admin activeSuperAdmin (by decide)⟩

/-- C10: vacuous semantics on the empty permission list — `hasAllPermissions`
is true, `hasAnyPermission` is false, and `authorizeRequest` with an empty
required list under AND semantics authorizes any authenticated active admin. -/
theorem empty_permission_list_semantics :
  (∀ ctx : AuthorizationContext, hasAllPermissions ctx [] = true) ∧
  (∀ ctx : AuthorizationContext, hasAnyPermission ctx [] = false) ∧
  (∀ (uid : String) (admin : AdminUser),
    (authorizeRequest ⟨true, some uid, some admin, false⟩ (some []) true).authorized = true) :=
  ⟨fun _ => rfl, fun _ => rfl, fun _ _ => rfl⟩

end PayEasy
